import Mathlib

/-!
Verification of the Market-Intelligence pipeline
(`Project-1-Market-Intelligence-Dashboard/scripts/`).

Numbers are embedded as rationals (`ℚ`): every arithmetic operation the
scripts perform (sums, differences, products, divisions) is exact there,
so equalities and inequalities between derived metrics transfer directly.
Division by zero is total (`x / 0 = 0` in `ℚ`); the spec explicitly leaves
division-by-zero behaviour to the implementer, and no claim depends on it.

Standard deviations are represented by their squares (variances): pandas'
`rolling(w).std()` is the square root of the variance it computes, and
since the square root is injective on nonnegative reals, two standard
deviation columns are equal (or differ) exactly when the variance columns
are, so every claim about a `std` column is settled on the variances.
-/

set_option maxRecDepth 100000

namespace MarketData

/-- Trailing window of width `n` ending at index `i` (inclusive), as pandas
`rolling(window=n)` sees it at row `i`. -/
def windowAt (n : ℕ) (xs : List ℚ) (i : ℕ) : List ℚ :=
  (xs.take (i + 1)).drop (i + 1 - n)

/-- Rolling application of `f` with window `n` and pandas' default
`min_periods = n`: the value at row `i` is defined only once `n`
observations are available (`i + 1 ≥ n`), and is `none` (NaN) before. -/
def rollingApply (n : ℕ) (f : List ℚ → ℚ) (xs : List ℚ) : List (Option ℚ) :=
  (List.range xs.length).map
    (fun i => if n ≤ i + 1 then some (f (windowAt n xs i)) else none)

/-- Arithmetic mean of a list (pandas `mean`). -/
def mean (l : List ℚ) : ℚ := l.sum / l.length

/-- Sample variance, divisor `N - 1` (pandas `std()` default `ddof=1`,
squared). This is the square of what `rolling(window).std()` stores. -/
def sampleVar (l : List ℚ) : ℚ :=
  ((l.map (fun x => (x - mean l) ^ 2)).sum) / ((l.length : ℚ) - 1)

/-- Population variance, divisor `N`: the square of the population
standard deviation the spec speaks of. -/
def popVar (l : List ℚ) : ℚ :=
  ((l.map (fun x => (x - mean l) ^ 2)).sum) / (l.length : ℚ)

/-- Rolling mean column: `Close.rolling(window=n).mean()` (also used for
`Volume.rolling(window=7).mean()`, i.e. `Volume_MA_7`). -/
def rollingMean (n : ℕ) (xs : List ℚ) : List (Option ℚ) :=
  rollingApply n mean xs

/-- Volatility column `Volatility_30d`, represented by its square:
`Close.rolling(window=30).std()` stores the square root of this. -/
def volatility30 (xs : List ℚ) : List (Option ℚ) :=
  rollingApply 30 sampleVar xs

/-- Percent change column `Close.pct_change()`: NaN at row 0, else
`(x_i - x_(i-1)) / x_(i-1)`. -/
def pctChange (xs : List ℚ) : List (Option ℚ) :=
  (List.range xs.length).map
    (fun i => if i = 0 then none
              else some ((xs.getD i 0 - xs.getD (i - 1) 0) / xs.getD (i - 1) 0))

/-- Absolute difference column `Close.diff()`: NaN at row 0, else
`x_i - x_(i-1)`. -/
def diffChange (xs : List ℚ) : List (Option ℚ) :=
  (List.range xs.length).map
    (fun i => if i = 0 then none else some (xs.getD i 0 - xs.getD (i - 1) 0))

/-- Row formula of the `Daily_Range` column:
`((High - Low) / Close) * 100`. -/
def dailyRangeRow (high low close : ℚ) : ℚ := ((high - low) / close) * 100

/-- Daily range column over whole series. -/
def dailyRangeCol (hs ls cs : List ℚ) : List ℚ :=
  (List.range cs.length).map
    (fun i => dailyRangeRow (hs.getD i 0) (ls.getD i 0) (cs.getD i 0))

/-- Volume ratio column `Volume / Volume_MA_7`: NaN where the rolling mean
is NaN, else the elementwise quotient. -/
def volumeOverMA7 (vs : List ℚ) : List (Option ℚ) :=
  (List.range vs.length).map
    (fun i => ((rollingMean 7 vs).getD i none).map (fun m => vs.getD i 0 / m))

/- Index lemmas for the rolling machinery. -/

lemma rollingApply_getD (n : ℕ) (f : List ℚ → ℚ) (xs : List ℚ) (i : ℕ)
    (h : i < xs.length) :
    (rollingApply n f xs).getD i none
      = if n ≤ i + 1 then some (f (windowAt n xs i)) else none := by
  unfold rollingApply
  rw [List.getD_eq_getElem?_getD, List.getElem?_map, List.getElem?_range h]
  rfl

lemma pctChange_getD (xs : List ℚ) (i : ℕ) (h : i < xs.length) :
    (pctChange xs).getD i none
      = if i = 0 then none
        else some ((xs.getD i 0 - xs.getD (i - 1) 0) / xs.getD (i - 1) 0) := by
  unfold pctChange
  rw [List.getD_eq_getElem?_getD, List.getElem?_map, List.getElem?_range h]
  rfl

lemma windowAt_length (n : ℕ) (xs : List ℚ) (i : ℕ)
    (h1 : i < xs.length) (h2 : n ≤ i + 1) :
    (windowAt n xs i).length = n := by
  unfold windowAt
  rw [List.length_drop, List.length_take]
  omega

/-- C1. For every observation series, each rolling metric of window `N`
(`Volatility_30d` and `MA_30` with `N = 30`; `MA_7` and `Volume_MA_7` with
`N = 7`, the latter being `rollingMean 7` applied to the volume series) is
undefined (`none`, the embedding of NaN) at exactly the first `N - 1`
indices and defined from the `N`-th observation onward, and
`Daily_Change = pct_change` is undefined at exactly the first index. -/
theorem c1_rolling_null_until_window (xs : List ℚ) (i : ℕ) (h : i < xs.length) :
    ((volatility30 xs).getD i none = none ↔ i < 29)
    ∧ ((rollingMean 30 xs).getD i none = none ↔ i < 29)
    ∧ ((rollingMean 7 xs).getD i none = none ↔ i < 6)
    ∧ ((pctChange xs).getD i none = none ↔ i = 0) := by
  refine ⟨?_, ?_, ?_, ?_⟩
  · rw [volatility30, rollingApply_getD 30 sampleVar xs i h]
    split <;> rename_i hn <;> simp <;> omega
  · rw [rollingMean, rollingApply_getD 30 mean xs i h]
    split <;> rename_i hn <;> simp <;> omega
  · rw [rollingMean, rollingApply_getD 7 mean xs i h]
    split <;> rename_i hn <;> simp <;> omega
  · rw [pctChange_getD xs i h]
    split <;> rename_i hn <;> simp [hn]

/-- Witness for C1 at a concrete series of 30 ones, index 29: the window-30
metrics are defined there (29 is not < 29) and `pct_change` is defined. -/
theorem c1_witness :
    ((volatility30 (List.replicate 30 1)).getD 29 none = none ↔ 29 < 29)
    ∧ ((rollingMean 30 (List.replicate 30 1)).getD 29 none = none ↔ 29 < 29)
    ∧ ((rollingMean 7 (List.replicate 30 1)).getD 29 none = none ↔ 29 < 6)
    ∧ ((pctChange (List.replicate 30 1)).getD 29 none = none ↔ 29 = 0) :=
  c1_rolling_null_until_window (List.replicate 30 1) 29 (by simp)

/- Constant-series scenario data (spec scenario A): 10 daily observations,
close 100, volume 1000. -/

/-- Constant close series of scenario A. -/
def constClose : List ℚ := List.replicate 10 100

/-- Constant volume series of scenario A. -/
def constVol : List ℚ := List.replicate 10 1000

/-- C4. Percent-change at index 1 equals `(p1 - p0) / p0` exactly, and on
the constant scenario-A series the defined rolling means equal the
constant, the volume ratio equals 1, percent-change equals 0 from index 1
on, and the window-30 columns satisfy the same at their (here vacuous,
since the series has only 10 observations) indices `≥ 30`. -/
theorem c4_pct_and_constant_series (p0 p1 : ℚ) (rest : List ℚ) :
    (pctChange (p0 :: p1 :: rest)).getD 1 none = some ((p1 - p0) / p0)
    ∧ (∀ i, i < 10 → 7 ≤ i →
        (rollingMean 7 constClose).getD i none = some 100
        ∧ (volumeOverMA7 constVol).getD i none = some 1)
    ∧ (∀ i, i < 10 → 1 ≤ i → (pctChange constClose).getD i none = some 0)
    ∧ (∀ i, i < 10 → 30 ≤ i →
        (rollingMean 30 constClose).getD i none = some 100
        ∧ (volatility30 constClose).getD i none = some 0) := by
  refine ⟨?_, by with_unfolding_all decide, by with_unfolding_all decide, by with_unfolding_all decide⟩
  rw [pctChange_getD (p0 :: p1 :: rest) 1 (by simp)]
  simp

/-- Witness for C4 at `p0 = 100`, `p1 = 110`. -/
theorem c4_witness :
    (pctChange (100 :: 110 :: [])).getD 1 none = some (((110 : ℚ) - 100) / 100) :=
  (c4_pct_and_constant_series 100 110 []).1

/-- C7 (amended). Every defined `Volatility_30d` value is the rolling
SAMPLE variance of the trailing 30-observation window: the sum of squared
deviations from the window mean divided by 29 = N - 1 (pandas
`std()` default `ddof=1`, squared), not by N = 30. -/
theorem c7_sample_var_amended (xs : List ℚ) (i : ℕ)
    (h1 : i < xs.length) (h2 : 29 ≤ i) :
    (volatility30 xs).getD i none
      = some ((((windowAt 30 xs i).map
          (fun x => (x - mean (windowAt 30 xs i)) ^ 2)).sum) / 29) := by
  rw [volatility30, rollingApply_getD 30 sampleVar xs i h1, if_pos (by omega)]
  unfold sampleVar
  rw [windowAt_length 30 xs i h1 (by omega)]
  norm_num

/-- Witness for C7 on 30 constant observations. -/
theorem c7_witness :
    (volatility30 (List.replicate 30 0)).getD 29 none
      = some ((((windowAt 30 (List.replicate 30 0) 29).map
          (fun x => (x - mean (windowAt 30 (List.replicate 30 0) 29)) ^ 2)).sum) / 29) :=
  c7_sample_var_amended (List.replicate 30 0) 29 (by simp) (by omega)

/-- Series refuting C7 as stated: 29 zeros followed by one 30. The window
mean is 1, the sum of squared deviations is 870, so the code's value
(sample variance, divisor 29) is 30 while the population variance
(divisor 30) is 29. -/
def volCexSeries : List ℚ := List.replicate 29 0 ++ [30]

/-- C7 counterexample. On `volCexSeries` the code stores variance 30 at
index 29 but the population variance of that window is 29; since the
standard deviations are the square roots of these and the square root is
injective on nonnegatives, `Volatility_30d` is not the rolling population
standard deviation. -/
theorem c7_not_population_var :
    (volatility30 volCexSeries).getD 29 none = some 30
    ∧ popVar (windowAt 30 volCexSeries 29) = 29
    ∧ (30 : ℚ) ≠ 29 := by with_unfolding_all decide

/- The frame-level embedding of `MarketDataCollector.calculate_market_metrics`.
A pandas DataFrame is embedded as a record of optional columns: a `none`
base column models a missing column (whose access raises `KeyError`), and
the function body mirrors the source's in-place column assignments in
source order, returning the frame accumulated so far at the first failing
step — exactly what the source's `try/except: return price_data` does to
its in-place-mutated argument. -/

/-- DataFrame embedding: base columns `Close/High/Low/Volume` plus the
derived-metric columns of `calculate_market_metrics`. -/
structure Frame where
  close : Option (List ℚ) := none
  high : Option (List ℚ) := none
  low : Option (List ℚ) := none
  volume : Option (List ℚ) := none
  volatility_30d : Option (List (Option ℚ)) := none
  daily_change : Option (List (Option ℚ)) := none
  daily_change_abs : Option (List (Option ℚ)) := none
  ma_7 : Option (List (Option ℚ)) := none
  ma_30 : Option (List (Option ℚ)) := none
  volume_ma_7 : Option (List (Option ℚ)) := none
  volume_over_ma : Option (List (Option ℚ)) := none
  daily_range : Option (List ℚ) := none
deriving DecidableEq

/-- Embedding of `calculate_market_metrics`: the assignments run in source
order; a missing required column aborts at that step (the caught
exception) and the frame as mutated so far is returned. -/
def calcMarketMetrics (pd : Frame) : Frame :=
  match pd.close with
  | none => pd
  | some c =>
    let f1 := { pd with volatility_30d := some (volatility30 c) }
    let f2 := { f1 with daily_change := some (pctChange c) }
    let f3 := { f2 with daily_change_abs := some (diffChange c) }
    let f4 := { f3 with ma_7 := some (rollingMean 7 c) }
    let f5 := { f4 with ma_30 := some (rollingMean 30 c) }
    match pd.volume with
    | none => f5
    | some v =>
      let f6 := { f5 with volume_ma_7 := some (rollingMean 7 v) }
      let f7 := { f6 with volume_over_ma := some (volumeOverMA7 v) }
      match pd.high, pd.low with
      | some h, some l => { f7 with daily_range := some (dailyRangeCol h l c) }
      | _, _ => f7

/-- C6 (amended). `calculate_market_metrics` never propagates an error and
never alters the base observation columns, and when the very first
calculation fails (missing `Close`) it returns its input unmodified; but
in general a failure part-way leaves the columns assigned before the
failing step in place (see the counterexample). -/
theorem c6_catch_semantics (pd : Frame) :
    (calcMarketMetrics pd).close = pd.close
    ∧ (calcMarketMetrics pd).high = pd.high
    ∧ (calcMarketMetrics pd).low = pd.low
    ∧ (calcMarketMetrics pd).volume = pd.volume
    ∧ (pd.close = none → calcMarketMetrics pd = pd) := by
  rcases hc : pd.close with _ | c
  · simp [calcMarketMetrics, hc]
  · rcases hv : pd.volume with _ | v
    · simp [calcMarketMetrics, hc, hv]
    · rcases hh : pd.high with _ | h
      · simp [calcMarketMetrics, hc, hv, hh]
      · rcases hl : pd.low with _ | l
        · simp [calcMarketMetrics, hc, hv, hh, hl]
        · simp [calcMarketMetrics, hc, hv, hh, hl]

/-- Frame with no `Close` column: the first metric assignment fails. -/
def frameNoClose : Frame := { volume := some [1] }

/-- Witness for C6: with `Close` missing the frame is returned unmodified. -/
theorem c6_witness : calcMarketMetrics frameNoClose = frameNoClose :=
  (c6_catch_semantics frameNoClose).2.2.2.2 rfl

/-- Frame with a `Close` column but no `Volume` column: the sixth
assignment (`Volume_MA_7`) fails after five columns were already set. -/
def frameCEx : Frame := { close := some [1] }

/-- C6 counterexample. On `frameCEx` the failing run does NOT return its
input unmodified: the derived columns assigned before the failing step
(here `Volatility_30d`, among others) are present in the result. -/
theorem c6_partial_mutation :
    (calcMarketMetrics frameCEx).volatility_30d = some [none]
    ∧ frameCEx.volatility_30d = none
    ∧ calcMarketMetrics frameCEx ≠ frameCEx := by with_unfolding_all decide

/-- C9 (amended). On a frame with all base columns present, the
`Daily_Range` column is set and each entry equals
`((high - low) / close) * 100` — the intraday range normalized by close,
expressed in PERCENT, not the plain ratio `(high - low) / close`. -/
theorem c9_daily_range_amended (pd : Frame) (cs hs ls vs : List ℚ)
    (hc : pd.close = some cs) (hh : pd.high = some hs)
    (hl : pd.low = some ls) (hv : pd.volume = some vs)
    (i : ℕ) (hi : i < cs.length) :
    (calcMarketMetrics pd).daily_range = some (dailyRangeCol hs ls cs)
    ∧ (dailyRangeCol hs ls cs).getD i 0
        = ((hs.getD i 0 - ls.getD i 0) / cs.getD i 0) * 100 := by
  constructor
  · simp [calcMarketMetrics, hc, hh, hl, hv]
  · unfold dailyRangeCol
    rw [List.getD_eq_getElem?_getD, List.getElem?_map, List.getElem?_range hi]
    rfl

/-- Frame for the C9 witness: one row with high 4, low 2, close 4. -/
def frameFull : Frame :=
  { close := some [4], high := some [4], low := some [2], volume := some [1] }

/-- Witness for C9 at the one-row frame. -/
theorem c9_witness :
    (calcMarketMetrics frameFull).daily_range = some (dailyRangeCol [4] [2] [4])
    ∧ (dailyRangeCol [4] [2] [4]).getD 0 0
        = ((([4] : List ℚ).getD 0 0 - ([2] : List ℚ).getD 0 0)
            / ([4] : List ℚ).getD 0 0) * 100 :=
  c9_daily_range_amended frameFull [4] [4] [2] [1] rfl rfl rfl rfl 0 (by simp)

/-- C9 counterexample. With high 4, low 2, close 4 the code computes 50
(percent), while the claimed formula `(high - low) / close` gives 1/2. -/
theorem c9_daily_range_times_100 :
    dailyRangeRow 4 2 4 = 50
    ∧ ((4 : ℚ) - 2) / 4 = 1 / 2
    ∧ (50 : ℚ) ≠ 1 / 2 := by with_unfolding_all decide

/- Reporter categorizations. `tableau_data_prep.py` buckets with SQL CASE
expressions; `tableau_data_simple.py` buckets the same columns with
`pd.cut`, whose bins are right-closed, left-open intervals and whose
values outside every bin receive no category (NaN, embedded as `none`). -/

/-- Risk tier of `tableau_data_prep.py` (SQL CASE): strict-greater
thresholds in descending order, first match wins. -/
def riskCategory (v : ℚ) : String :=
  if 0.04 < v then "High Risk"
  else if 0.025 < v then "Medium Risk"
  else "Low Risk"

/-- Risk tier of `tableau_data_simple.py`:
`pd.cut(volatility_30d, bins=[0, 0.025, 0.04, inf])`, i.e. the intervals
`(0, 0.025]`, `(0.025, 0.04]`, `(0.04, inf)`; values at or below 0 fall in
no bin and get no category. -/
def riskCategorySimple (v : ℚ) : Option String :=
  if 0 < v ∧ v ≤ 0.025 then some "Low Risk"
  else if 0.025 < v ∧ v ≤ 0.04 then some "Medium Risk"
  else if 0.04 < v then some "High Risk"
  else none

/-- Performance category of `tableau_data_prep.py` (SQL CASE). -/
def performanceCategory (d : ℚ) : String :=
  if 0.02 < d then "Strong Up"
  else if 0 < d then "Up"
  else if d < -0.02 then "Strong Down"
  else "Down"

/-- Performance category of `tableau_data_simple.py`:
`pd.cut(daily_change, bins=[-inf, -0.02, 0, 0.02, inf])`; every rational
falls in one of the right-closed intervals. -/
def performanceCategorySimple (d : ℚ) : String :=
  if d ≤ -0.02 then "Strong Down"
  else if d ≤ 0 then "Down"
  else if d ≤ 0.02 then "Up"
  else "Strong Up"

lemma riskCategorySimple_pos (v : ℚ) (hv : 0 < v) :
    riskCategorySimple v = some (riskCategory v) := by
  unfold riskCategorySimple riskCategory
  rcases le_or_lt v 0.025 with h1 | h1
  · have h2 : ¬ (0.025 : ℚ) < v := not_lt.2 h1
    have h3 : ¬ (0.04 : ℚ) < v := by
      intro h
      have : (0.04 : ℚ) < 0.025 := lt_of_lt_of_le h h1
      norm_num at this
    rw [if_pos ⟨hv, h1⟩, if_neg h3, if_neg h2]
  · rcases le_or_lt v 0.04 with h2 | h2
    · have h3 : ¬ (0.04 : ℚ) < v := not_lt.2 h2
      have h4 : ¬ (0 < v ∧ v ≤ 0.025) := fun hx => absurd h1 (not_lt.2 hx.2)
      rw [if_neg h4, if_pos ⟨h1, h2⟩, if_neg h3, if_pos h1]
    · have h4 : ¬ (0 < v ∧ v ≤ 0.025) := by
        rintro ⟨_, hx⟩
        have : (0.04 : ℚ) < 0.025 := lt_of_lt_of_le h2 hx
        norm_num at this
      have h5 : ¬ (0.025 < v ∧ v ≤ 0.04) := fun hx => absurd h2 (not_lt.2 hx.2)
      rw [if_neg h4, if_neg h5, if_pos h2, if_pos h2]

lemma riskCategorySimple_nonpos (v : ℚ) (hv : v ≤ 0) :
    riskCategorySimple v = none := by
  unfold riskCategorySimple
  have h1 : ¬ (0 < v ∧ v ≤ 0.025) := fun hx => absurd hv (not_le.2 hx.1)
  have h2 : ¬ (0.025 < v ∧ v ≤ 0.04) := by
    rintro ⟨hx, _⟩
    have : (0.025 : ℚ) < 0 := lt_of_lt_of_le hx hv
    norm_num at this
  have h3 : ¬ (0.04 : ℚ) < v := by
    intro hx
    have : (0.04 : ℚ) < 0 := lt_of_lt_of_le hx hv
    norm_num at this
  rw [if_neg h1, if_neg h2, if_neg h3]

lemma performanceCategorySimple_eq (d : ℚ) (hd : d ≠ -0.02) :
    performanceCategorySimple d = performanceCategory d := by
  unfold performanceCategorySimple performanceCategory
  rcases lt_or_gt_of_ne hd with h | h
  · have h1 : d ≤ -0.02 := le_of_lt h
    have h2 : ¬ (0.02 : ℚ) < d := by
      intro hx
      have : (0.02 : ℚ) < -0.02 := lt_of_lt_of_le hx h1
      norm_num at this
    have h3 : ¬ (0 : ℚ) < d := by
      intro hx
      have : (0 : ℚ) < -0.02 := lt_of_lt_of_le hx h1
      norm_num at this
    rw [if_pos h1, if_neg h2, if_neg h3, if_pos h]
  · have h1 : ¬ d ≤ -0.02 := not_le.2 h
    rw [if_neg h1]
    rcases le_or_lt d 0 with h2 | h2
    · have h3 : ¬ (0.02 : ℚ) < d := by
        intro hx
        have : (0.02 : ℚ) < 0 := lt_of_lt_of_le hx h2
        norm_num at this
      have h4 : ¬ d < -0.02 := not_lt.2 (le_of_lt h)
      rw [if_pos h2, if_neg h3, if_neg (not_lt.2 h2), if_neg h4]
    · rcases le_or_lt d 0.02 with h3 | h3
      · rw [if_neg h2.not_le, if_pos h3, if_neg (not_lt.2 h3), if_pos h2]
      · rw [if_neg h2.not_le, if_neg h3.not_le, if_pos h3]

/-- C3 (amended). The SQL CASE risk bucketing is the total strict-greater
descending first-match rule: above 0.04 High Risk, else above 0.025 Medium
Risk, else Low Risk; exactly 0.04 gets Medium Risk and every value
(including 0) gets exactly one tier. The `pd.cut` bucketing of
`tableau_data_simple.py` agrees with it for every volatility above 0 but
assigns NO tier to values at or below 0 (they fall outside its bins). -/
theorem c3_risk_tier_amended (v : ℚ) :
    (0.04 < v → riskCategory v = "High Risk")
    ∧ (0.025 < v → v ≤ 0.04 → riskCategory v = "Medium Risk")
    ∧ (v ≤ 0.025 → riskCategory v = "Low Risk")
    ∧ riskCategory 0.04 = "Medium Risk"
    ∧ (0 < v → riskCategorySimple v = some (riskCategory v))
    ∧ (v ≤ 0 → riskCategorySimple v = none) := by
  refine ⟨?_, ?_, ?_, by with_unfolding_all decide,
    riskCategorySimple_pos v, riskCategorySimple_nonpos v⟩
  · intro h
    rw [riskCategory, if_pos h]
  · intro h1 h2
    rw [riskCategory, if_neg (not_lt.2 h2), if_pos h1]
  · intro h1
    have h2 : ¬ (0.04 : ℚ) < v := by
      intro hx
      have : (0.04 : ℚ) < 0.025 := lt_of_lt_of_le hx h1
      norm_num at this
    rw [riskCategory, if_neg h2, if_neg (not_lt.2 h1)]

/-- Witness for C3 at the boundary 0.04 and at 0.03. -/
theorem c3_witness :
    riskCategory 0.04 = "Medium Risk"
    ∧ riskCategorySimple 0.03 = some (riskCategory 0.03) :=
  ⟨(c3_risk_tier_amended 0.04).2.2.2.1,
   (c3_risk_tier_amended 0.03).2.2.2.2.1 (by norm_num)⟩

/-- C3 counterexample. Volatility exactly 0 (a constant price window)
receives a tier from the SQL CASE (Low Risk) but NO tier at all from the
`pd.cut` bucketing, refuting "every input value (including 0) receives
exactly one tier" for the Reporter's `pd.cut` implementation. -/
theorem c3_cut_gives_no_tier_at_zero :
    riskCategorySimple 0 = none ∧ riskCategory 0 = "Low Risk" := by
  with_unfolding_all decide

/-- C10 (amended). The SQL CASE and `pd.cut` reporters agree on
`performance_category` at every `daily_change` other than exactly -0.02
(where SQL gives "Down" and `pd.cut` gives "Strong Down"; at the
boundaries 0 and 0.02 they agree), and agree on `risk_category` at every
`volatility_30d` above 0 (including the boundaries 0.025 and 0.04), while
at 0 the SQL CASE gives "Low Risk" and `pd.cut` gives no category. -/
theorem c10_equivalence_amended (d v : ℚ) :
    (d ≠ -0.02 → performanceCategorySimple d = performanceCategory d)
    ∧ performanceCategorySimple (-0.02) = "Strong Down"
    ∧ performanceCategory (-0.02) = "Down"
    ∧ (0 < v → riskCategorySimple v = some (riskCategory v))
    ∧ (v ≤ 0 → riskCategorySimple v = none) :=
  ⟨performanceCategorySimple_eq d,
   by with_unfolding_all decide,
   by with_unfolding_all decide,
   riskCategorySimple_pos v,
   riskCategorySimple_nonpos v⟩

/-- Witness for C10 at the boundaries 0 and 0.02 (performance) and 0.04
(risk), where the implementations do agree. -/
theorem c10_witness :
    performanceCategorySimple 0 = performanceCategory 0
    ∧ performanceCategorySimple 0.02 = performanceCategory 0.02
    ∧ riskCategorySimple 0.04 = some (riskCategory 0.04) :=
  ⟨(c10_equivalence_amended 0 1).1 (by norm_num),
   (c10_equivalence_amended 0.02 1).1 (by norm_num),
   (c10_equivalence_amended 0 0.04).2.2.2.1 (by norm_num)⟩

/-- C10 counterexample. At `daily_change = -0.02` the SQL CASE assigns
"Down" while `pd.cut` assigns "Strong Down", and at `volatility_30d = 0`
the SQL CASE assigns "Low Risk" while `pd.cut` assigns no category: the
two Reporter implementations are NOT equivalent at these boundaries. -/
theorem c10_boundary_disagreement :
    performanceCategory (-0.02) = "Down"
    ∧ performanceCategorySimple (-0.02) = "Strong Down"
    ∧ ("Down" : String) ≠ "Strong Down"
    ∧ riskCategory 0 = "Low Risk"
    ∧ riskCategorySimple 0 = none := by
  with_unfolding_all decide

/- Reporter rankings. The SQL query uses `RANK() OVER (ORDER BY x DESC)`
(standard competition ranking); the pandas variant uses
`Series.rank(ascending=False)` whose default method is `average`. -/

/-- Number of entries of `xs` strictly greater than `v`. -/
def countGT (xs : List ℚ) (v : ℚ) : ℕ :=
  (xs.filter (fun x => decide (v < x))).length

/-- Number of entries of `xs` equal to `v`. -/
def countEQ (xs : List ℚ) (v : ℚ) : ℕ :=
  (xs.filter (fun x => decide (x = v))).length

/-- SQL `RANK() OVER (ORDER BY x DESC)`: standard competition ranking,
rank of `v` is 1 plus the number of strictly greater values. -/
def rankCompetitionDesc (xs : List ℚ) : List ℕ :=
  xs.map (fun v => 1 + countGT xs v)

/-- pandas `rank(ascending=False)` with its default `method='average'`:
each tie group receives the mean of the positions it occupies. -/
def rankAverageDesc (xs : List ℚ) : List ℚ :=
  xs.map (fun v => (countGT xs v : ℚ) + ((countEQ xs v : ℚ) + 1) / 2)

/-- C8 (amended). On mean returns [0.02, -0.01, 0.02], the SQL `RANK()`
reporter produces competition ranks [1, 3, 1] (tied entities share the
best rank, the third gets 3), while the pandas reporter's default
`rank()` produces AVERAGE ranks [1.5, 3, 1.5] — not competition or dense
ranking, and not integers. -/
theorem c8_rank_schemes :
    rankCompetitionDesc [1 / 50, -1 / 100, 1 / 50] = [1, 3, 1]
    ∧ rankAverageDesc [1 / 50, -1 / 100, 1 / 50] = [3 / 2, 3, 3 / 2] := by
  with_unfolding_all decide

/-- C8 counterexample. The pandas reporter assigns rank 3/2 to the tied
entities: 3/2 has denominator 2, so a rank assigned is not an integer
position, refuting "every rank assigned is an integer position under one
of those two schemes". -/
theorem c8_average_rank_not_integer :
    rankAverageDesc [1 / 50, -1 / 100, 1 / 50] = [3 / 2, 3, 3 / 2]
    ∧ ((3 : ℚ) / 2).den ≠ 1 := by
  with_unfolding_all decide

/- Batch collection (`MarketDataCollector.collect_all_data`). An upstream
fetch per symbol returns either rows or `none` (an exception, which
`collect_daily_prices` catches and converts to `None`, exactly like an
empty result). Only the fields the claims touch are carried on rows. -/

/-- One observation row; `collect_daily_prices` stamps `Symbol` and
`Company` columns onto every fetched row. -/
structure Obs where
  symbol : String := ""
  company : String := ""
  close : ℚ := 0
  volume : ℚ := 0
deriving DecidableEq

/-- Embedding of `collect_daily_prices`: `none` models both the caught
exception and the empty-result branch (`hist.empty`); on success the
`Symbol` and `Company` columns are set on every row. -/
def collectDailyPrices (fetch : String → Option (List Obs))
    (names : String → String) (sym : String) : Option (List Obs) :=
  match fetch sym with
  | none => none
  | some hist =>
    if hist.isEmpty then none
    else some (hist.map (fun o => { o with symbol := sym, company := names sym }))

/-- Embedding of the per-entity loop of `collect_all_data`: failed
entities are skipped, successful ones appended in order. (The
`calculate_market_metrics` call on each successful frame only adds derived
numeric columns — `c6_catch_semantics` proves it never alters the base
columns — so it is dropped here.) -/
def collectAllData (fetch : String → Option (List Obs))
    (names : String → String) (companies : List String) : List (List Obs) :=
  companies.filterMap (fun sym => collectDailyPrices fetch names sym)

/-- Combined price output that `save_data` concatenates and writes. -/
def combinedPrices (fetch : String → Option (List Obs))
    (names : String → String) (companies : List String) : List Obs :=
  (collectAllData fetch names companies).flatten

lemma collectDailyPrices_symbol (fetch : String → Option (List Obs))
    (names : String → String) (sym : String) (rows : List Obs)
    (h : collectDailyPrices fetch names sym = some rows) :
    ∀ o ∈ rows, o.symbol = sym := by
  intro o ho
  simp only [collectDailyPrices] at h
  cases hf : fetch sym with
  | none =>
    rw [hf] at h
    exact absurd h (by simp)
  | some hist =>
    rw [hf] at h
    by_cases he : hist.isEmpty = true
    · simp [he] at h
    · simp [he] at h
      rw [← h] at ho
      obtain ⟨a, _, rfl⟩ := List.mem_map.1 ho
      rfl

lemma length_filterMap_add {α β : Type} (f : α → Option β) (l : List α) :
    (l.filterMap f).length + (l.filter (fun a => (f a).isNone)).length
      = l.length := by
  induction l with
  | nil => rfl
  | cons a l ih =>
    cases hf : f a <;>
      simp [List.filterMap_cons, List.filter_cons, hf] <;> omega

/-- C2. For any batch, if `collect_daily_prices` yields `none` for some
entity (empty fetch or exception), that entity alone is skipped: the
combined output contains no row bearing its symbol, the number of
successes equals attempted minus the number of failed entities, and every
row of every successful entity still reaches the combined output. -/
theorem c2_failed_entity_isolated (fetch : String → Option (List Obs))
    (names : String → String) (companies : List String) (bad : String)
    (hbad : collectDailyPrices fetch names bad = none) :
    (∀ o ∈ combinedPrices fetch names companies, o.symbol ≠ bad)
    ∧ (collectAllData fetch names companies).length
        = companies.length
          - (companies.filter
              (fun s => (collectDailyPrices fetch names s).isNone)).length
    ∧ (∀ sym ∈ companies, ∀ rows,
        collectDailyPrices fetch names sym = some rows →
        ∀ o ∈ rows, o ∈ combinedPrices fetch names companies) := by
  refine ⟨?_, ?_, ?_⟩
  · intro o ho
    obtain ⟨rows, hrows, horows⟩ := List.mem_flatten.1 ho
    obtain ⟨sym, _, hsome⟩ := List.mem_filterMap.1 hrows
    rw [collectDailyPrices_symbol fetch names sym rows hsome o horows]
    intro heq
    rw [heq, hbad] at hsome
    exact Option.noConfusion hsome
  · have hadd : (collectAllData fetch names companies).length
        + (companies.filter
            (fun s => (collectDailyPrices fetch names s).isNone)).length
        = companies.length := by
      unfold collectAllData
      exact length_filterMap_add _ companies
    omega
  · intro sym hmem rows hsome o ho
    exact List.mem_flatten.2 ⟨rows, List.mem_filterMap.2 ⟨sym, hmem, hsome⟩, ho⟩

/-- Concrete two-entity upstream for the C2 witness: entity "A" fetches
one row, entity "B" fails. -/
def wfetch : String → Option (List Obs) :=
  fun s => if s = "A" then some [{ close := 1, volume := 1 }] else none

/-- Constant company-name table for the C2 witness. -/
def wnames : String → String := fun _ => "X"

/-- Witness for C2 (spec scenario B): attempted 2, one failed entity, so
one success. -/
theorem c2_witness :
    (collectAllData wfetch wnames ["A", "B"]).length
      = (["A", "B"] : List String).length
        - ((["A", "B"] : List String).filter
            (fun s => (collectDailyPrices wfetch wnames s).isNone)).length :=
  (c2_failed_entity_isolated wfetch wnames ["A", "B"] "B"
    (by with_unfolding_all decide)).2.1

/- Persister (`database_loader.load_data_to_database`). Both tables are
written with `to_sql(..., if_exists='replace')`, then five secondary
indexes are created with `CREATE INDEX IF NOT EXISTS`. -/

/-- One row of the `company_fundamentals` table. -/
structure Fund where
  symbol : String := ""
  company : String := ""
  market_cap : ℚ := 0
deriving DecidableEq

/-- The SQLite store: the two tables plus the set of created indexes. -/
structure DB where
  stock_prices : List Obs := []
  company_fundamentals : List Fund := []
  indexes : List String := []
deriving DecidableEq

/-- Semantics of one `CREATE INDEX IF NOT EXISTS name` statement. -/
def createIndexIfNotExists (idxs : List String) (name : String) : List String :=
  if name ∈ idxs then idxs else idxs ++ [name]

/-- Names of the five indexes `load_data_to_database` creates. -/
def indexNames : List String :=
  ["idx_stock_symbol_date", "idx_stock_date", "idx_stock_symbol",
   "idx_fundamentals_symbol", "idx_fundamentals_sector"]

/-- Embedding of `load_data_to_database`: replace-all writes of both
tables (`if_exists='replace'`), then index creation. -/
def loadDataToDatabase (db : DB) (prices : List Obs) (funds : List Fund) : DB :=
  { stock_prices := prices,
    company_fundamentals := funds,
    indexes := indexNames.foldl createIndexIfNotExists db.indexes }

lemma mem_createIndexIfNotExists (idxs : List String) (n a : String)
    (h : a ∈ idxs) : a ∈ createIndexIfNotExists idxs n := by
  unfold createIndexIfNotExists
  split
  · exact h
  · exact List.mem_append_left _ h

lemma self_mem_createIndexIfNotExists (idxs : List String) (n : String) :
    n ∈ createIndexIfNotExists idxs n := by
  unfold createIndexIfNotExists
  split
  · assumption
  · simp

lemma mem_foldl_createIndexIfNotExists (ns : List String) (idxs : List String)
    (a : String) (h : a ∈ idxs) :
    a ∈ ns.foldl createIndexIfNotExists idxs := by
  induction ns generalizing idxs with
  | nil => exact h
  | cons m ms ih => exact ih _ (mem_createIndexIfNotExists idxs m a h)

lemma all_mem_foldl_createIndexIfNotExists (ns : List String)
    (idxs : List String) :
    ∀ n ∈ ns, n ∈ ns.foldl createIndexIfNotExists idxs := by
  induction ns generalizing idxs with
  | nil => intro n hn; exact absurd hn (by simp)
  | cons m ms ih =>
    intro n hn
    rcases List.mem_cons.1 hn with rfl | hn
    · exact mem_foldl_createIndexIfNotExists ms _ n
        (self_mem_createIndexIfNotExists idxs n)
    · exact ih _ n hn

lemma foldl_createIndexIfNotExists_nop (ns : List String) (idxs : List String)
    (h : ∀ n ∈ ns, n ∈ idxs) :
    ns.foldl createIndexIfNotExists idxs = idxs := by
  induction ns with
  | nil => rfl
  | cons m ms ih =>
    have hm : createIndexIfNotExists idxs m = idxs := by
      unfold createIndexIfNotExists
      rw [if_pos (h m (List.mem_cons_self m ms))]
    rw [List.foldl_cons, hm]
    exact ih (fun n hn => h n (List.mem_cons_of_mem m hn))

/-- C5. Replace-all persistence is idempotent: loading the same batch
twice leaves the store — both tables and the index set — exactly as a
single load does, because each run's table contents wholesale replace the
prior contents and index creation is `IF NOT EXISTS`. -/
theorem c5_replace_all_idempotent (db : DB) (prices : List Obs)
    (funds : List Fund) :
    loadDataToDatabase (loadDataToDatabase db prices funds) prices funds
      = loadDataToDatabase db prices funds := by
  unfold loadDataToDatabase
  simp only [DB.mk.injEq, true_and]
  exact foldl_createIndexIfNotExists_nop indexNames _
    (all_mem_foldl_createIndexIfNotExists indexNames db.indexes)

/-- Witness instantiating the idempotence of the loader at a concrete
store and batch. -/
theorem c5_witness :
    loadDataToDatabase (loadDataToDatabase {} [] []) [] []
      = loadDataToDatabase {} [] [] :=
  c5_replace_all_idempotent {} [] []

end MarketData
